import Mathlib

/-!
# portenta_sumo_sentinel : `portenta_h7/config.example.h`

The header is a configuration template: two string constants holding the WiFi
credentials and four integer macros holding the octets of a static Ethernet
address. It declares no function; consumers read the constants directly.

The embedding keeps the source names. `const char*` constants initialised from a
string literal become `String`; the object-like macros expanding to decimal
`int` literals become `Int`.
-/

namespace Config

/-! ## Constants of the header -/

/-- Source line 12: `const char* WIFI_SSID = "TU_WIFI_SSID";` -/
def WIFI_SSID : String := "TU_WIFI_SSID"

/-- Source line 13: `const char* WIFI_PASSWORD = "TU_WIFI_PASSWORD";` -/
def WIFI_PASSWORD : String := "TU_WIFI_PASSWORD"

/-- Source line 16: `#define ETHERNET_IP_1 192` -/
def ETHERNET_IP_1 : Int := 192

/-- Source line 17: `#define ETHERNET_IP_2 168` -/
def ETHERNET_IP_2 : Int := 168

/-- Source line 18: `#define ETHERNET_IP_3 0` -/
def ETHERNET_IP_3 : Int := 0

/-- Source line 19: `#define ETHERNET_IP_4 74` -/
def ETHERNET_IP_4 : Int := 74

/-! ## Specification predicates -/

/-- A value fits in one unsigned byte. -/
def isOctet (v : Int) : Bool := decide (0 ≤ v) && decide (v ≤ 255)

/-- Modelled from the spec: the equality check against the known placeholder
strings `"TU_WIFI_SSID"` / `"TU_WIFI_PASSWORD"` that tells the unmodified
template from a real configuration. The header contains no such check. -/
def isPlaceholder (ssid password : String) : Bool :=
  ssid == "TU_WIFI_SSID" && password == "TU_WIFI_PASSWORD"

/-- Printable ASCII: code points 0x20 (space) to 0x7E (tilde). -/
def isPrintableAscii (c : Char) : Bool := decide (0x20 ≤ c.toNat) && decide (c.toNat ≤ 0x7E)

/-- Every character of the text is printable ASCII. -/
def allPrintableAscii (s : String) : Bool := s.toList.all isPrintableAscii

/-- Length of the text as `strlen` reports it: the number of bytes before the
terminator. -/
def strlen (s : String) : Nat := s.utf8ByteSize

/-- Big-endian packing of four octets into one 32-bit value: the first octet is
the most significant byte. -/
def packBigEndian (a b c d : Int) : Int :=
  ((a * 256 + b) * 256 + c) * 256 + d

/-- Membership of a packed address in the block 192.168.0.0/16: the upper 16
bits equal 0xC0A8. -/
def inPrivate192_168 (addr : Int) : Bool := decide (addr / 65536 = 0xC0A8)

/-! ## Configuration-loading operations of the specification

The header declares no function and no error type: nothing in the source obtains,
checks or rejects a configuration. The two operations below are the ones the
specification describes for a configuration-loading module; they are stated over
a record with the fields the specification lists, and `template` is that record
filled with the header's constants. -/

/-- Modelled from the spec: the `MissingConfiguration` error kind with which the
configuration-loading operations fail. The header declares no error type. -/
inductive ConfigError where
  | MissingConfiguration
  deriving DecidableEq

/-- Modelled from the spec: the configuration as "two string-valued
configuration fields and four byte-valued fields". The header declares no record
type, only the six constants. -/
structure Configuration where
  ssid : String
  password : String
  ip1 : Fin 256
  ip2 : Fin 256
  ip3 : Fin 256
  ip4 : Fin 256

/-- The configuration holding the header's constants, unmodified. Each address
macro is within 0 to 255, so its conversion to a byte keeps its value. -/
def template : Configuration where
  ssid := WIFI_SSID
  password := WIFI_PASSWORD
  ip1 := ⟨ETHERNET_IP_1.toNat, by decide⟩
  ip2 := ⟨ETHERNET_IP_2.toNat, by decide⟩
  ip3 := ⟨ETHERNET_IP_3.toNat, by decide⟩
  ip4 := ⟨ETHERNET_IP_4.toNat, by decide⟩

/-- Modelled from the spec: the operation to obtain the configured SSID and
password as two text values, failing with `MissingConfiguration` if the real
(non-template) values have not been supplied. The header has no such
operation. -/
def obtainCredentials (c : Configuration) : Except ConfigError (String × String) :=
  if isPlaceholder c.ssid c.password then
    Except.error ConfigError.MissingConfiguration
  else
    Except.ok (c.ssid, c.password)

/-- Modelled from the spec: the operation to obtain the static IPv4 address as
four byte values, each constrained to 0 to 255, failing with
`MissingConfiguration` if the real (non-template) values have not been supplied.
The header has no such operation. -/
def obtainStaticAddress (c : Configuration) :
    Except ConfigError (Fin 256 × Fin 256 × Fin 256 × Fin 256) :=
  if isPlaceholder c.ssid c.password then
    Except.error ConfigError.MissingConfiguration
  else
    Except.ok (c.ip1, c.ip2, c.ip3, c.ip4)

/-! ## Theorems -/

/-- C1: each of the four static Ethernet address components defined by the
header, `ETHERNET_IP_1` to `ETHERNET_IP_4`, is an integer between 0 and 255
inclusive. -/
theorem ethernet_ip_components_in_byte_range :
    (0 ≤ ETHERNET_IP_1 ∧ ETHERNET_IP_1 ≤ 255) ∧
    (0 ≤ ETHERNET_IP_2 ∧ ETHERNET_IP_2 ≤ 255) ∧
    (0 ≤ ETHERNET_IP_3 ∧ ETHERNET_IP_3 ≤ 255) ∧
    (0 ≤ ETHERNET_IP_4 ∧ ETHERNET_IP_4 ≤ 255) ∧
    isOctet ETHERNET_IP_1 = true ∧ isOctet ETHERNET_IP_2 = true ∧
    isOctet ETHERNET_IP_3 = true ∧ isOctet ETHERNET_IP_4 = true := by
  decide

/-- C2: the credentials of the template are exactly the known placeholder
strings, `WIFI_SSID` is "TU_WIFI_SSID" and `WIFI_PASSWORD` is
"TU_WIFI_PASSWORD", so the equality check against the placeholders holds for
this header: it is recognised as a template, not a deployed configuration. -/
theorem template_credentials_are_placeholders :
    WIFI_SSID = "TU_WIFI_SSID" ∧ WIFI_PASSWORD = "TU_WIFI_PASSWORD" ∧
    isPlaceholder WIFI_SSID WIFI_PASSWORD = true := by
  decide

/-- The template record carries the header's constants: its texts are
`WIFI_SSID` and `WIFI_PASSWORD` and its four bytes are the values of
`ETHERNET_IP_1` to `ETHERNET_IP_4`. -/
theorem template_holds_header_constants :
    template.ssid = WIFI_SSID ∧ template.password = WIFI_PASSWORD ∧
    ((template.ip1.val : Int), (template.ip2.val : Int), (template.ip3.val : Int),
      (template.ip4.val : Int)) =
      (ETHERNET_IP_1, ETHERNET_IP_2, ETHERNET_IP_3, ETHERNET_IP_4) := by
  decide

/-- Once the credentials differ from the placeholders, both operations of the
specification return the configured values unchanged. -/
theorem obtain_succeeds_on_real_configuration (c : Configuration)
    (h : isPlaceholder c.ssid c.password = false) :
    obtainCredentials c = Except.ok (c.ssid, c.password) ∧
    obtainStaticAddress c = Except.ok (c.ip1, c.ip2, c.ip3, c.ip4) := by
  simp [obtainCredentials, obtainStaticAddress, h]

/-- C3: obtaining the SSID and password, and obtaining the static IPv4 address,
each fail with a `MissingConfiguration` error when the real (non-template)
values have not been supplied, that is when the configuration is the unmodified
template with SSID "TU_WIFI_SSID" and password "TU_WIFI_PASSWORD". -/
theorem obtain_fails_on_unmodified_template (c : Configuration)
    (hs : c.ssid = "TU_WIFI_SSID") (hp : c.password = "TU_WIFI_PASSWORD") :
    obtainCredentials c = Except.error ConfigError.MissingConfiguration ∧
    obtainStaticAddress c = Except.error ConfigError.MissingConfiguration := by
  have h : isPlaceholder c.ssid c.password = true := by
    simp [isPlaceholder, hs, hp]
  simp [obtainCredentials, obtainStaticAddress, h]

/-- C3 at the header's own values: the record built from `WIFI_SSID`,
`WIFI_PASSWORD` and the four address macros is rejected by both operations. -/
theorem obtain_fails_on_unmodified_template_witness :
    template.ssid = "TU_WIFI_SSID" ∧ template.password = "TU_WIFI_PASSWORD" ∧
    obtainCredentials template = Except.error ConfigError.MissingConfiguration ∧
    obtainStaticAddress template = Except.error ConfigError.MissingConfiguration :=
  ⟨by decide, by decide,
    obtain_fails_on_unmodified_template template (by decide) (by decide)⟩

/-- C4: the SSID and password text fields defined by the header, `WIFI_SSID`
and `WIFI_PASSWORD`, are both non-empty strings. -/
theorem credentials_nonempty :
    WIFI_SSID ≠ "" ∧ WIFI_PASSWORD ≠ "" ∧
    0 < WIFI_SSID.length ∧ 0 < WIFI_PASSWORD.length := by
  decide

/-- C5: the credential strings are valid for their WiFi protocol fields.
`WIFI_SSID` has length 12, within the 1 to 32 bytes of an 802.11 SSID;
`WIFI_PASSWORD` has length 16, within the 8 to 63 characters of a WPA/WPA2
passphrase; both consist only of printable ASCII characters. -/
theorem credentials_valid_for_protocol_fields :
    (strlen WIFI_SSID = 12 ∧ WIFI_SSID.length = 12 ∧
      1 ≤ strlen WIFI_SSID ∧ strlen WIFI_SSID ≤ 32) ∧
    (strlen WIFI_PASSWORD = 16 ∧ WIFI_PASSWORD.length = 16 ∧
      8 ≤ WIFI_PASSWORD.length ∧ WIFI_PASSWORD.length ≤ 63) ∧
    allPrintableAscii WIFI_SSID = true ∧ allPrintableAscii WIFI_PASSWORD = true := by
  decide

/-- C6: the four address macros taken in order form the IPv4 address
192.168.0.74, whose big-endian packed 32-bit value is 3232235594 (0xC0A8004A);
the address lies in the private block 192.168.0.0/16 and its last octet is
neither 0 nor 255, so it is a host address of 192.168.0.0/24 and not the network
or broadcast address. -/
theorem ethernet_ip_is_192_168_0_74 :
    (ETHERNET_IP_1, ETHERNET_IP_2, ETHERNET_IP_3, ETHERNET_IP_4) = (192, 168, 0, 74) ∧
    packBigEndian ETHERNET_IP_1 ETHERNET_IP_2 ETHERNET_IP_3 ETHERNET_IP_4 = 3232235594 ∧
    packBigEndian ETHERNET_IP_1 ETHERNET_IP_2 ETHERNET_IP_3 ETHERNET_IP_4 = 0xC0A8004A ∧
    packBigEndian ETHERNET_IP_1 ETHERNET_IP_2 ETHERNET_IP_3 ETHERNET_IP_4 < 2 ^ 32 ∧
    inPrivate192_168
      (packBigEndian ETHERNET_IP_1 ETHERNET_IP_2 ETHERNET_IP_3 ETHERNET_IP_4) = true ∧
    ETHERNET_IP_4 ≠ 0 ∧ ETHERNET_IP_4 ≠ 255 := by
  decide

end Config
